import Mathlib

set_option maxRecDepth 4000

/-!
Shallow embedding of the `Plotter<T>` fixed-width text-table renderer
(`src/include/Plotter.hpp`, `src/src/Plotter.cpp`).

The C++ class is a template over an element type `T` that is used only through
stream insertion (`operator<<` with or without `std::fixed`/`std::setprecision`)
and default construction `T()`.  The embedding therefore abstracts the element
type as a type `α` together with a `FmtSpec α` record providing exactly those
three capabilities.  Machine integers are modelled as `Nat`/`Int` with explicit
wrapping (`% 2^32` for `unsigned int`, `% 2^64` for `size_t`) at the places the
C++ code converts between them.  `std::string(n, c)` with a negative `int`
count converts `n` to a huge `size_t` (above `max_size()`) and throws
`std::length_error`; this is the only failure the render pipeline can raise,
and it is modelled by `Except`-style results threaded through the pipeline.
-/

/-- Wrap-around conversion of a signed value into an `unsigned int`
(32-bit): the value modulo `2^32 = 4294967296`, as used when a (possibly
negative) `int` is stored into an `unsigned int` field. -/
def u32 (n : Int) : Nat := (n % (4294967296 : Int)).toNat

/-- Wrap-around conversion into a `size_t` (64-bit unsigned): the value
modulo `2^64 = 18446744073709551616`.  Used for the unsigned arithmetic the C++ code performs when
`unsigned int` and `size_t` operands are mixed. -/
def szt (n : Int) : Nat := (n % (18446744073709551616 : Int)).toNat

/-- Conversion of an integer value to a 32-bit signed `int`
(two's-complement wrap, which is what the reference implementations do on
out-of-range unsigned→signed conversions). -/
def toInt32 (n : Int) : Int :=
  let r := n % (4294967296 : Int)
  if r < 2147483648 then r else r - 4294967296

/-- `std::string(n, ' ')` where `n` is an `int`: a negative `n` converts to a
`size_t` above `max_size()` and the constructor throws `std::length_error`
(libstdc++ message shown); a non-negative `n` builds `n` spaces. -/
def cppSpaces (n : Int) : Except String String :=
  if n < 0 then .error "basic_string::_M_create"
  else .ok (String.mk (List.replicate n.toNat ' '))

/-- `std::setw w` followed by inserting text `s` with the default
(right-justified) adjustment: if `s` is shorter than the field width the fill
spaces go on the left; a wider `s` is written unchanged (no truncation).
`setw` receives the stored `unsigned int` column width through an `int`
parameter, hence the `toInt32` conversion. -/
def setwPad (cw : Nat) (s : String) : String :=
  let w : Int := toInt32 cw
  if (s.length : Int) < w then String.mk (List.replicate (w - s.length).toNat ' ') ++ s
  else s

/-- Whether `pat` occurs at the start of `l`. -/
def listStartsWith : List Char → List Char → Bool
  | [], _ => true
  | _ :: _, [] => false
  | p :: ps, c :: cs => p == c && listStartsWith ps cs

/-- Whether `pat` occurs as a contiguous sublist of `l`. -/
def listHasInfix (pat : List Char) : List Char → Bool
  | [] => listStartsWith pat []
  | c :: cs => listStartsWith pat (c :: cs) || listHasInfix pat cs

/-- Whether the string `pat` occurs as a substring of `s`. -/
def strContainsSub (s pat : String) : Bool := listHasInfix pat.toList s.toList

/-- `enum class DataArrangement` from `Plotter.hpp`. -/
inductive DataArrangement : Type
  | ColumnMajor : DataArrangement
  | RowMajor : DataArrangement

/-- The capabilities the C++ template uses from its element type `T`:
`fmtFixed p v` is the text produced by `ss << std::setprecision p <<
std::fixed << v`, `fmtPlain v` the text produced by insertion into a fresh
stream with default flags, and `defaultVal` is `T()`. -/
structure FmtSpec (α : Type) where
  fmtFixed : Nat → α → String
  fmtPlain : α → String
  defaultVal : α

/-- The state of a constructed `Plotter<T>` object: the accumulated output
stringstream `_table` plus the data pointer (modelled as the pointed-to
buffer contents) and the configuration/geometry fields of `Plotter.hpp`. -/
structure Plotter (α : Type) where
  _table : String
  data : List α
  data_arrangement : DataArrangement
  column_names : List String
  name : String
  table_width : Nat
  column_width : Nat
  size : Nat
  cols : Nat
  rows : Nat
  precision : Nat

/-- `Plotter<T>::calculate_rows(int size, int column_count)`: C++ `int`
division, which truncates toward zero (`Int.tdiv`).  The arguments arrive
through the wrapping unsigned→int conversions (`toInt32`) the constructor's
call performs, so they can be negative when `_size` or `_cols` is at or
above `2^31`. -/
def calculate_rows (size column_count : Int) : Int := Int.tdiv size column_count

/-- `Plotter<T>::calculate_column_width(int table_width, int cols)`:
`(table_width - (cols + 1)) / cols` with C++ `int` division, which truncates
toward zero (`Int.tdiv`).  As with `calculate_rows` the `unsigned`
field values pass through wrapping unsigned→int conversions (`toInt32`)
at the constructor's call. -/
def calculate_column_width (table_width cols : Int) : Int :=
  Int.tdiv (table_width - (cols + 1)) cols

/-- `Plotter<T>::validate_inputs_throw_exception()`: the four constructor
checks, in source order, with the exact exception messages; `none` means
validation passed.  The data pointer is modelled as an `Option`al buffer
(`none` = null pointer). -/
def validate_inputs_throw_exception (data : Option (List α))
    (column_names : List String) (table_width size : Nat) : Option String :=
  if data.isNone then some "Plotter: data pointer cannot be null."
  else if column_names.isEmpty then some "Plotter: column names vector cannot be empty."
  else if table_width == 0 then some "Plotter: table width cannot be zero."
  else if size == 0 then some "Plotter: size cannot be zero."
  else none

/-- The `Plotter<T>` constructor: stores the inputs, runs validation (throwing
= `Except.error` with the exception message), then derives the geometry with
the C++ integer conversions spelled out: `_cols = column_names.size()`
truncates `size_t` into `unsigned int` (modulo `2^32`); the calls
`calculate_rows(size, _cols)` and `calculate_column_width(table_width,
_cols)` convert each `unsigned` argument into an `int` parameter with the
wrapping `toInt32` conversion; and each signed result is stored back into an
unsigned field modulo `2^32` (`u32`).  `table_width` and `size` are
`unsigned int` parameters, so their meaningful range is below `2^32`.
(`Int.tdiv _ 0` stands in for the division that C++ leaves undefined when
`_cols` wraps to zero, which needs a `2^32`-element name vector;
`_precision = 8`; the stringstream `_table` starts empty.) -/
def Plotter.mk? (data : Option (List α)) (name : String)
    (column_names : List String) (table_width size : Nat)
    (data_arrangement : DataArrangement) : Except String (Plotter α) :=
  match validate_inputs_throw_exception data column_names table_width size with
  | some e => .error e
  | none =>
    .ok { _table := ""
          data := data.getD []
          data_arrangement := data_arrangement
          column_names := column_names
          name := name
          table_width := table_width
          column_width := u32 (calculate_column_width (toInt32 table_width)
            (toInt32 ((column_names.length % 4294967296 : Nat) : Int)))
          size := size
          cols := column_names.length % 4294967296
          rows := u32 (calculate_rows (toInt32 size)
            (toInt32 ((column_names.length % 4294967296 : Nat) : Int)))
          precision := 8 }

/-- The dash run `std::string(_table_width - 2, '-')` used by the border
lines: `_table_width - 2` in unsigned arithmetic, so `table_width < 2` wraps
modulo `2^32` (a 4-billion-dash string rather than an exception, since the
wrapped count is below `max_size()`). -/
def borderDashes (table_width : Nat) : String :=
  String.mk (List.replicate (u32 ((table_width : Int) - 2)) '-')

/-- Body of `Plotter<T>::print_endline()` as a function of the field it
reads: `"+"`, the dashes, `"+"`, newline. -/
def print_endline_core (table_width : Nat) : String :=
  "+" ++ borderDashes table_width ++ "+" ++ "\n"

/-- `Plotter<T>::print_endline()`. -/
def print_endline (p : Plotter α) : String := print_endline_core p.table_width

/-- The value `print_row` fetches for cell `j`:
`_data[start_index + j * stride]`, computed in 32-bit unsigned arithmetic:
`start_index` and `j` are `unsigned int`, and in `j * stride` the `int`
stride converts back to `unsigned int` by the usual arithmetic conversions
(the stride argument holds 1 or the unsigned value of `_rows`, so the model
takes that unsigned value directly), so the index wraps modulo `2^32`.
`getD` supplies the default value for a read past the end of the modelled
buffer, which in C++ is an out-of-bounds read. -/
def rowCellValue (F : FmtSpec α) (data : List α) (start_index stride j : Nat) : α :=
  data.getD ((start_index + j * stride) % 4294967296) F.defaultVal

/-- `Plotter<T>::col_width_is_sufficient(value, column_width)`: format the
value with `std::setprecision(_precision) << std::fixed` into a fresh stream
and compare the text length against the column width. -/
def col_width_is_sufficient (F : FmtSpec α) (precision : Nat) (value : α)
    (column_width : Nat) : Bool :=
  (F.fmtFixed precision value).length ≤ column_width

/-- One loop iteration of `Plotter<T>::print_row`: the pair of (text appended
to `_table` for cell `j`, text appended to `too_long_values_buffer` for cell
`j`).  A value whose fixed-precision text exceeds the column width is replaced
by `T()` inline and recorded in the buffer as
`"\n\ncell: " << j << " value: " << value` with default (plain) formatting. -/
def rowCell (F : FmtSpec α) (data : List α) (precision column_width : Nat)
    (start_index stride j : Nat) : String × String :=
  let value := rowCellValue F data start_index stride j
  if col_width_is_sufficient F precision value column_width then
    (setwPad column_width (F.fmtFixed precision value) ++ "|", "")
  else
    (setwPad column_width (F.fmtFixed precision F.defaultVal) ++ "|",
     "\n\n" ++ "cell: " ++ toString j ++ " value: " ++ F.fmtPlain value)

/-- Body of `Plotter<T>::print_row(start_index, cell_count, stride)` as a
function of the fields it reads: `"|"`, then per cell its inline text (each
ending in `"|"`), then the whole overflow buffer, then the row newline.  The
single C++ loop appends the inline parts to `_table` and the overflow parts
to a side buffer emitted after the loop, which is the two-pass form below. -/
def print_row_core (F : FmtSpec α) (data : List α) (precision column_width : Nat)
    (start_index cell_count stride : Nat) : String :=
  "|" ++ String.join ((List.range cell_count).map
          (fun j => (rowCell F data precision column_width start_index stride j).fst))
      ++ String.join ((List.range cell_count).map
          (fun j => (rowCell F data precision column_width start_index stride j).snd))
      ++ "\n"

/-- `Plotter<T>::print_row(start_index, cell_count, stride)`. -/
def print_row (F : FmtSpec α) (p : Plotter α)
    (start_index cell_count stride : Nat) : String :=
  print_row_core F p.data p.precision p.column_width start_index cell_count stride

/-- Body of `Plotter<T>::print_content()` as a function of the fields it
reads: `_rows` calls to `print_row` — RowMajor rows start at `i * _cols`
(an `unsigned int` product, wrapping modulo `2^32`) with stride 1,
ColumnMajor rows start at `i` with stride `_rows` (passed through the `int`
stride parameter and converted back to unsigned inside `print_row`, which is
the identity since `_rows < 2^32`) — followed by a closing separator line. -/
def print_content_core (F : FmtSpec α) (data : List α) (arr : DataArrangement)
    (rows cols precision column_width table_width : Nat) : String :=
  (match arr with
   | .RowMajor =>
     String.join ((List.range rows).map
       (fun i => print_row_core F data precision column_width ((i * cols) % 4294967296) cols 1))
   | .ColumnMajor =>
     String.join ((List.range rows).map
       (fun i => print_row_core F data precision column_width i cols rows)))
  ++ print_endline_core table_width

/-- `Plotter<T>::print_content()`. -/
def print_content (F : FmtSpec α) (p : Plotter α) : String :=
  print_content_core F p.data p.data_arrangement p.rows p.cols p.precision
    p.column_width p.table_width

/-- `int left_padding = (_table_width - _name.length() - 2) / 2;` —
computed in unsigned (`size_t`) arithmetic (wrapping if the name does not
fit) and then truncated into a 32-bit `int`. -/
def header_left_padding (name : String) (table_width : Nat) : Int :=
  toInt32 ((szt ((table_width : Int) - name.length - 2)) / 2 : Nat)

/-- `int right_padding = _table_width - _name.length() - 2 - left_padding;`
— same unsigned arithmetic then truncation into `int`. -/
def header_right_padding (name : String) (table_width : Nat) : Int :=
  toInt32 ((table_width : Int) - name.length - 2 - header_left_padding name table_width)

/-- Body of `Plotter<T>::print_table_header()` as a function of the fields it
reads: emits a blank line, a `+`/dash border, the centered name row, and the
border again.  A negative padding makes the corresponding
`std::string(padding, ' ')` constructor throw `std::length_error` (the `int`
converts to a `size_t` above `max_size()`); the branches below spell out the
three outcomes — left padding throws, right padding throws, or no throw —
with everything inserted before the throwing construction staying in
`_table`, exactly as with the `cppSpaces` model of that constructor. -/
def print_table_header_core (name : String) (table_width : Nat) : String × Option String :=
  if header_left_padding name table_width < 0 then
    ("\n" ++ "+" ++ borderDashes table_width ++ "+" ++ "\n" ++ "|",
     some "basic_string::_M_create")
  else if header_right_padding name table_width < 0 then
    ("\n" ++ "+" ++ borderDashes table_width ++ "+" ++ "\n" ++ "|"
       ++ String.mk (List.replicate (header_left_padding name table_width).toNat ' ') ++ name,
     some "basic_string::_M_create")
  else
    ("\n" ++ "+" ++ borderDashes table_width ++ "+" ++ "\n" ++ "|"
       ++ String.mk (List.replicate (header_left_padding name table_width).toNat ' ') ++ name
       ++ String.mk (List.replicate (header_right_padding name table_width).toNat ' ')
       ++ "|" ++ "\n" ++ "+" ++ borderDashes table_width ++ "+" ++ "\n",
     none)

/-- `Plotter<T>::print_table_header()`. -/
def print_table_header (p : Plotter α) : String × Option String :=
  print_table_header_core p.name p.table_width

/-- The loop of `Plotter<T>::print_columns_header` over the column names:
per column, `std::string(left_padding, ' ') << header <<
std::string(right_padding, ' ') << "|"`, where the paddings are computed in
unsigned arithmetic from `_column_width - header.length()` and truncated to
`int` (negative when the header is longer than the column, making the
space-string constructor throw; text already inserted stays). -/
def columnsHeaderLoop (column_width : Nat) : List String → String × Option String
  | [] => ("", none)
  | header :: rest =>
    let left_padding : Int := toInt32 ((szt ((column_width : Int) - header.length)) / 2 : Nat)
    let right_padding : Int := toInt32 ((column_width : Int) - header.length - left_padding)
    match cppSpaces left_padding with
    | .error e => ("", some e)
    | .ok l =>
      match cppSpaces right_padding with
      | .error e => (l ++ header, some e)
      | .ok r =>
        let tail := columnsHeaderLoop column_width rest
        (l ++ header ++ r ++ "|" ++ tail.fst, tail.snd)

/-- Body of `Plotter<T>::print_columns_header()` as a function of the fields
it reads: `"|"`, the centered headers loop, and — only when no iteration
threw — the row newline and a separator line. -/
def print_columns_header_core (column_width : Nat) (column_names : List String)
    (table_width : Nat) : String × Option String :=
  let body := columnsHeaderLoop column_width column_names
  match body.snd with
  | some e => ("|" ++ body.fst, some e)
  | none => ("|" ++ body.fst ++ "\n" ++ print_endline_core table_width, none)

/-- `Plotter<T>::print_columns_header()`. -/
def print_columns_header (p : Plotter α) : String × Option String :=
  print_columns_header_core p.column_width p.column_names p.table_width

/-- The shared body of `print_table`/`get_table` as a function of the fields
it reads: run the header, column-header and content steps in order inside the
`try` block.  The result is the text appended to `_table` (up to the point of
a throw) and the first error, if any; the content step cannot throw. -/
def render_steps_core (F : FmtSpec α) (data : List α) (arr : DataArrangement)
    (column_names : List String) (name : String)
    (table_width column_width rows cols precision : Nat) : String × Option String :=
  match print_table_header_core name table_width with
  | (s, some e) => (s, some e)
  | (s, none) =>
    match print_columns_header_core column_width column_names table_width with
    | (t, some e) => (s ++ t, some e)
    | (t, none) =>
      (s ++ t ++ print_content_core F data arr rows cols precision column_width table_width,
       none)

/-- The shared `try`-block body of `Plotter<T>::print_table()` and
`Plotter<T>::get_table()`. -/
def render_steps (F : FmtSpec α) (p : Plotter α) : String × Option String :=
  render_steps_core F p.data p.data_arrangement p.column_names p.name
    p.table_width p.column_width p.rows p.cols p.precision

/-- The text `Plotter<T>::get_table()`\'s catch handlers write to `std::cerr`:
empty when no exception was thrown, otherwise
`"Error printing table: " + _name + "\n"` followed by `e.what()` and a
newline. -/
def getTableCerrMsg (name : String) (err : Option String) : String :=
  match err with
  | none => ""
  | some e => "Error printing table: " ++ name ++ "\n" ++ e ++ "\n"

/-- The text `Plotter<T>::print_table()`\'s catch handlers write to
`std::cout`: empty when no exception was thrown, otherwise
`"Error printing table: " + e.what()`. -/
def printTableErrMsg (err : Option String) : String :=
  match err with
  | none => ""
  | some e => "Error printing table: " ++ e

/-- Result of `Plotter<T>::get_table()`: the returned string, the text written
to `std::cerr` by the catch handler, and the object state afterwards. -/
structure GetTableResult (α : Type) where
  ret : String
  cerr : String
  self : Plotter α

/-- `Plotter<T>::get_table()`: runs the pipeline inside `try`/`catch`; a
caught exception is reported on `std::cerr` as
`"Error printing table: " + _name + "\n"` followed by `e.what()` and a
newline.  Afterwards — caught or not — `"\n"` is appended to `_table` and the
accumulated `_table` contents are returned.  No exception propagates. -/
def get_table (F : FmtSpec α) (p : Plotter α) : GetTableResult α :=
  let r := render_steps F p
  let tbl := p._table ++ r.fst ++ "\n"
  { ret := tbl
    cerr := getTableCerrMsg p.name r.snd
    self := { p with _table := tbl } }

/-- Result of `Plotter<T>::print_table()`: the text written to `std::cout`
(the catch handler's message, if any, followed by the full `_table` contents)
and the object state afterwards. -/
structure PrintTableResult (α : Type) where
  cout : String
  self : Plotter α

/-- `Plotter<T>::print_table()`: same pipeline under `try`/`catch`, but the
diagnostic `"Error printing table: " + e.what()` goes to `std::cout`, after
which `"\n"` is appended to `_table` and `_table` is printed to `std::cout`.
No exception propagates. -/
def print_table (F : FmtSpec α) (p : Plotter α) : PrintTableResult α :=
  let r := render_steps F p
  let tbl := p._table ++ r.fst ++ "\n"
  { cout := printTableErrMsg r.snd ++ tbl
    self := { p with _table := tbl } }

/-- `Plotter<int>` restricted to non-negative values: `std::fixed` and
`std::setprecision` do not affect integer insertion, so both formatters are
plain decimal digits, and `int()` is `0`. -/
def FmtNat : FmtSpec Nat :=
  { fmtFixed := fun _ n => toString n
    fmtPlain := fun n => toString n
    defaultVal := 0 }

/-- An exact decimal number `m / 10 ^ e`.  Stands in for the `double` values
the spec's examples use: every example value (`12345.678`, `0`, ...) is a
short decimal, and for such values the C++ iostream output modelled below
agrees with IEEE-754 `double` formatting (the nearest double differs from the
exact decimal by far less than the displayed precision, and no round-to-even
tie arises at either precision for them). -/
structure Dec : Type where
  m : Int
  e : Nat

/-- Divide `a` by `b` (`b > 0`) rounding to nearest, ties to even — the
correct rounding used when iostream shortens a decimal expansion. -/
def divRNE (a b : Nat) : Nat :=
  let q := a / b
  let r := a % b
  if 2 * r < b then q
  else if b < 2 * r then q + 1
  else if q % 2 = 0 then q else q + 1

/-- Left-pad a digit string with zeros to width `w`. -/
def padLeftZeros (w : Nat) (s : String) : String :=
  String.mk (List.replicate (w - s.length) '0') ++ s

/-- Drop trailing `'0'` characters. -/
def stripTrailingZeros (s : String) : String :=
  String.mk (((s.toList.reverse).dropWhile (fun c => c == '0')).reverse)

/-- `ss << std::setprecision prec << std::fixed << d` for an exact decimal
`d`: exactly `prec` digits after the decimal point (no point when
`prec = 0`), rounding to nearest when the decimal has more than `prec`
fractional digits. -/
def fmtFixedDec (prec : Nat) (d : Dec) : String :=
  let sign := if d.m < 0 then "-" else ""
  let n : Nat := d.m.natAbs
  let scaled : Nat := if d.e ≤ prec then n * 10 ^ (prec - d.e) else divRNE n (10 ^ (d.e - prec))
  let ip := scaled / 10 ^ prec
  let fp := scaled % 10 ^ prec
  if prec = 0 then sign ++ toString ip
  else sign ++ toString ip ++ "." ++ padLeftZeros prec (toString fp)

/-- `ss << d` with default stream flags for an exact decimal `d`: C++
`defaultfloat` with the default precision 6, i.e. `%g` semantics — round to
6 significant digits, strip trailing zeros, use fixed style when the decimal
exponent `E` satisfies `-4 ≤ E < 6` and scientific style otherwise. -/
def fmtPlainDec (d : Dec) : String :=
  if d.m = 0 then "0"
  else
    let sign := if d.m < 0 then "-" else ""
    let n : Nat := d.m.natAbs
    let s := toString n
    let D := s.length
    let E0 : Int := (D : Int) - 1 - (d.e : Int)
    let r : Nat := if D ≤ 6 then n * 10 ^ (6 - D) else divRNE n (10 ^ (D - 6))
    let carried : Nat × Int := if (toString r).length = 7 then (r / 10, E0 + 1) else (r, E0)
    let ds := stripTrailingZeros (toString carried.fst)
    let E := carried.snd
    let L := ds.length
    if -4 ≤ E ∧ E < 6 then
      if 0 ≤ E then
        if L ≤ E.toNat + 1 then sign ++ ds ++ String.mk (List.replicate (E.toNat + 1 - L) '0')
        else sign ++ ds.take (E.toNat + 1) ++ "." ++ ds.drop (E.toNat + 1)
      else sign ++ "0." ++ String.mk (List.replicate ((-E).toNat - 1) '0') ++ ds
    else
      let expNat := E.natAbs
      let expStr := if expNat < 10 then "0" ++ toString expNat else toString expNat
      sign ++ ds.take 1 ++ (if ds.drop 1 = "" then "" else "." ++ ds.drop 1)
        ++ "e" ++ (if E < 0 then "-" else "+") ++ expStr

/-- `Plotter<double>` on exact-decimal values: fixed and default formatting
as above, and `double()` is `0` (an exact decimal). -/
def FmtDec : FmtSpec Dec :=
  { fmtFixed := fmtFixedDec
    fmtPlain := fmtPlainDec
    defaultVal := { m := 0, e := 0 } }


/-- The buffer index the SPEC says cell `j` of content row `i` is read from:
`i*cols + j` for RowMajor, `i + j*rows` for ColumnMajor. -/
def specCellIndex (arr : DataArrangement) (cols rows i j : Nat) : Nat :=
  match arr with
  | .RowMajor => i * cols + j
  | .ColumnMajor => i + j * rows

/-- The buffer index the CODE reads for cell `j` of content row `i`:
`start_index + j * stride` computed in 32-bit unsigned arithmetic, at the
`(start_index, stride)` arguments `print_content` passes to `print_row` for
row `i` (RowMajor also computes the start `i * _cols` in unsigned
arithmetic, wrapping modulo `2^32`). -/
def contentReadIndex (p : Plotter α) (i j : Nat) : Nat :=
  match p.data_arrangement with
  | .RowMajor => ((i * p.cols) % 4294967296 + j * 1) % 4294967296
  | .ColumnMajor => (i + j * p.rows) % 4294967296

/-- The value the code fetches for cell `j` of content row `i`:
`rowCellValue` at the `(start_index, stride)` arguments `print_content`
passes to `print_row` for row `i`. -/
def contentCellValue (F : FmtSpec α) (p : Plotter α) (i j : Nat) : α :=
  match p.data_arrangement with
  | .RowMajor => rowCellValue F p.data ((i * p.cols) % 4294967296) 1 j
  | .ColumnMajor => rowCellValue F p.data i p.rows j

/-- The list of content-row texts `print_content` emits, one per iteration of
its loop. -/
def contentRows (F : FmtSpec α) (p : Plotter α) : List String :=
  (List.range p.rows).map (fun i =>
    match p.data_arrangement with
    | .RowMajor => print_row F p ((i * p.cols) % 4294967296) p.cols 1
    | .ColumnMajor => print_row F p i p.cols p.rows)

/-- Concrete `Plotter<int>` instance: buffer `[1,2,3,4,5,6]`, two columns,
ColumnMajor (the spec's §8 example), table width 13. -/
def pA : Plotter Nat :=
  { _table := "", data := [1, 2, 3, 4, 5, 6], data_arrangement := .ColumnMajor
    column_names := ["A", "B"], name := "demo", table_width := 13
    column_width := 5, size := 6, cols := 2, rows := 3, precision := 8 }

/-- Concrete `Plotter<int>` instance: buffer `[1,2,3,4]`, two columns,
RowMajor, table width 13 (the spec's §8 end-to-end example). -/
def pB : Plotter Nat :=
  { _table := "", data := [1, 2, 3, 4], data_arrangement := .RowMajor
    column_names := ["A", "B"], name := "demo", table_width := 13
    column_width := 5, size := 4, cols := 2, rows := 2, precision := 8 }

/-- Concrete `Plotter<int>` instance whose table width (1) is too small for
its two columns: `calculate_column_width` returns `-1`, stored as
`4294967295` in the unsigned `_column_width` field. -/
def pC : Plotter Nat :=
  { _table := "", data := [1, 2], data_arrangement := .RowMajor
    column_names := ["a", "b"], name := "N", table_width := 1
    column_width := 4294967295, size := 2, cols := 2, rows := 1, precision := 8 }

/-- Concrete `Plotter<int>` instance with column width 5 and one value
(`123456`) whose text overflows the column while the other (`42`) fits. -/
def pE : Plotter Nat :=
  { _table := "", data := [123456, 42], data_arrangement := .RowMajor
    column_names := ["A", "B"], name := "demo", table_width := 13
    column_width := 5, size := 2, cols := 2, rows := 1, precision := 8 }

/-- Concrete `Plotter<double>` instance for the spec's overflow example:
column width 5 and first cell value `12345.678`. -/
def p5 : Plotter Dec :=
  { _table := "", data := [{ m := 12345678, e := 3 }, { m := 0, e := 0 }]
    data_arrangement := .RowMajor
    column_names := ["A", "B"], name := "demo", table_width := 13
    column_width := 5, size := 2, cols := 2, rows := 1, precision := 8 }

/-- Concrete `Plotter<int>` instance for the spec's title-centering example:
name `"X"`, table width 11. -/
def p8 : Plotter Nat :=
  { _table := "", data := [7], data_arrangement := .RowMajor
    column_names := ["C"], name := "X", table_width := 11
    column_width := 9, size := 1, cols := 1, rows := 1, precision := 8 }

/-- Concrete `Plotter<int>` instance whose name (`"LONGNAME"`, 8 chars) does
not fit its table width (5): the title banner's padding comes out negative and
the render pipeline throws from `std::string(left_padding, ' ')`. -/
def pD : Plotter Nat :=
  { _table := "", data := [1], data_arrangement := .RowMajor
    column_names := ["a"], name := "LONGNAME", table_width := 5
    column_width := 3, size := 1, cols := 1, rows := 1, precision := 8 }

/-- Concrete `Plotter<int>` instance at `size = 2^31 + 2 = 2147483650` with 2
columns: the constructor converts `size` to a negative `int`
(`-2147483646`), so `_rows = u32(-2147483646 / 2) = 3221225473`, far from
`size / cols = 1073741825`.  (The caller-supplied `size` overstates the
2-element buffer, which construction never checks.) -/
def pW : Plotter Nat :=
  { _table := "", data := [5, 6], data_arrangement := .ColumnMajor
    column_names := ["a", "b"], name := "W", table_width := 13
    column_width := 5, size := 2147483650, cols := 2, rows := 3221225473, precision := 8 }

/-- Concrete `Plotter<int>` instance at `table_width = 4000000000` with 2
columns: `(int)table_width` wraps to `-294967296`, so the stored column
width is `u32((-294967296 - 3) / 2) = 4147483647`, not
`(4000000000 - 3) / 2 = 1999999998`. -/
def pV : Plotter Nat :=
  { _table := "", data := [1, 2], data_arrangement := .RowMajor
    column_names := ["a", "b"], name := "V", table_width := 4000000000
    column_width := 4147483647, size := 2, cols := 2, rows := 1, precision := 8 }

/-- The `pW` geometry with a buffer that genuinely holds `size` elements
(`List.replicate`, never evaluated element by element in the proofs): the
out-of-range row count makes rendering read indices beyond `size`. -/
def pW8 : Plotter Nat :=
  { _table := "", data := List.replicate 2147483650 0, data_arrangement := .ColumnMajor
    column_names := ["a", "b"], name := "W", table_width := 13
    column_width := 5, size := 2147483650, cols := 2, rows := 3221225473, precision := 8 }

lemma print_content_eq_contentRows (F : FmtSpec α) (p : Plotter α) :
    print_content F p = String.join (contentRows F p) ++ print_endline p := by
  unfold print_content contentRows
  cases p.data_arrangement <;> rfl
/-- Inversion of a successful construction: the validation conditions held
and every field has the value the constructor computes. -/
lemma mk_ok_fields {data : Option (List α)} {nm : String} {ns : List String}
    {tw sz : Nat} {arr : DataArrangement} {p : Plotter α}
    (h : Plotter.mk? data nm ns tw sz arr = .ok p) :
    data ≠ none ∧ ns ≠ [] ∧ tw ≠ 0 ∧ sz ≠ 0 ∧
    p._table = "" ∧ p.data = data.getD [] ∧ p.name = nm ∧
    p.column_names = ns ∧ p.table_width = tw ∧ p.size = sz ∧
    p.cols = ns.length % 4294967296 ∧
    p.rows = u32 (calculate_rows (toInt32 sz)
      (toInt32 ((ns.length % 4294967296 : Nat) : Int))) ∧
    p.column_width = u32 (calculate_column_width (toInt32 tw)
      (toInt32 ((ns.length % 4294967296 : Nat) : Int))) ∧
    p.precision = 8 ∧ p.data_arrangement = arr := by
  unfold Plotter.mk? validate_inputs_throw_exception at h
  rcases data with _ | buf
  · simp at h
  · rcases ns with _ | ⟨n0, ns1⟩
    · simp at h
    · rcases tw with _ | tw1
      · simp at h
      · rcases sz with _ | sz1
        · simp at h
        · simp only [Option.isNone_some, Bool.false_eq_true, if_false,
            List.isEmpty_cons, Nat.succ_ne_zero, beq_iff_eq, if_neg] at h
          rw [Except.ok.injEq] at h
          subst h
          refine ⟨by simp, by simp, by simp, by simp, by with_reducible rfl,
            by with_reducible rfl, by with_reducible rfl, by with_reducible rfl,
            by with_reducible rfl, by with_reducible rfl, by with_reducible rfl,
            by with_reducible rfl, by with_reducible rfl, by with_reducible rfl,
            by with_reducible rfl⟩
lemma pA_ok : Plotter.mk? (some [1, 2, 3, 4, 5, 6]) "demo" ["A", "B"] 13 6
    DataArrangement.ColumnMajor = .ok pA := rfl
lemma pB_ok : Plotter.mk? (some [1, 2, 3, 4]) "demo" ["A", "B"] 13 4
    DataArrangement.RowMajor = .ok pB := rfl
lemma pC_ok : Plotter.mk? (some [1, 2]) "N" ["a", "b"] 1 2
    DataArrangement.RowMajor = .ok pC := rfl
lemma pE_ok : Plotter.mk? (some [123456, 42]) "demo" ["A", "B"] 13 2
    DataArrangement.RowMajor = .ok pE := rfl
lemma p5_ok : Plotter.mk? (some [{ m := 12345678, e := 3 }, { m := 0, e := 0 }])
    "demo" ["A", "B"] 13 2 DataArrangement.RowMajor = .ok p5 := rfl
lemma p8_ok : Plotter.mk? (some [7]) "X" ["C"] 11 1
    DataArrangement.RowMajor = .ok p8 := rfl

lemma pW_ok : Plotter.mk? (some [5, 6]) "W" ["a", "b"] 13 2147483650
    DataArrangement.ColumnMajor = .ok pW := rfl

lemma pV_ok : Plotter.mk? (some [1, 2]) "V" ["a", "b"] 4000000000 2
    DataArrangement.RowMajor = .ok pV := rfl

lemma pW8_ok : Plotter.mk? (some (List.replicate 2147483650 0)) "W" ["a", "b"] 13 2147483650
    DataArrangement.ColumnMajor = .ok pW8 := rfl

lemma pD_ok : Plotter.mk? (some [1]) "LONGNAME" ["a"] 5 1
    DataArrangement.RowMajor = .ok pD := rfl

lemma szt_natCast (n : Nat) (h : n < 2 ^ 64) : szt (n : Int) = n := by
  unfold szt; omega

lemma toInt32_natCast (n : Nat) (h : n < 2 ^ 31) : toInt32 (n : Int) = (n : Int) := by
  simp only [toInt32]
  rw [Int.emod_eq_of_lt (by omega) (by omega), if_pos (by omega)]

lemma u32_natCast (n : Nat) (h : n < 2 ^ 32) : u32 (n : Int) = n := by
  unfold u32; omega

lemma cppSpaces_natCast (n : Nat) :
    cppSpaces (n : Int) = .ok (String.mk (List.replicate n ' ')) := by
  unfold cppSpaces
  rw [if_neg (by omega)]
  simp

lemma int_toNat_cast (n : Nat) : ((n : Int)).toNat = n := rfl

lemma header_left_padding_def (nm : String) (tw : Nat) :
    header_left_padding nm tw = toInt32 ((szt ((tw : Int) - nm.length - 2)) / 2 : Nat) := rfl

lemma header_right_padding_def (nm : String) (tw : Nat) :
    header_right_padding nm tw
      = toInt32 ((tw : Int) - nm.length - 2 - header_left_padding nm tw) := rfl

lemma borderDashes_def (tw : Nat) :
    borderDashes tw = String.mk (List.replicate (u32 ((tw : Int) - 2)) '-') := rfl

lemma print_table_header_eq_core (p : Plotter α) :
    print_table_header p = print_table_header_core p.name p.table_width := rfl

lemma print_table_header_core_def (nm : String) (tw : Nat) :
    print_table_header_core nm tw =
      (if header_left_padding nm tw < 0 then
        ("\n" ++ "+" ++ borderDashes tw ++ "+" ++ "\n" ++ "|",
         some "basic_string::_M_create")
      else if header_right_padding nm tw < 0 then
        ("\n" ++ "+" ++ borderDashes tw ++ "+" ++ "\n" ++ "|"
           ++ String.mk (List.replicate (header_left_padding nm tw).toNat ' ') ++ nm,
         some "basic_string::_M_create")
      else
        ("\n" ++ "+" ++ borderDashes tw ++ "+" ++ "\n" ++ "|"
           ++ String.mk (List.replicate (header_left_padding nm tw).toNat ' ') ++ nm
           ++ String.mk (List.replicate (header_right_padding nm tw).toNat ' ')
           ++ "|" ++ "\n" ++ "+" ++ borderDashes tw ++ "+" ++ "\n",
         none)) := rfl

lemma idx_lt_mul_row {i j r c : Nat} (hi : i < r) (hj : j < c) :
    i * c + j < r * c := by
  have hrow : i * c + c ≤ r * c := by
    have hmul := Nat.mul_le_mul_right c hi
    rwa [Nat.succ_mul] at hmul
  exact Nat.lt_of_lt_of_le (Nat.add_lt_add_left hj (i * c)) hrow

lemma idx_lt_mul_col {i j r c : Nat} (hi : i < r) (hj : j < c) :
    i + j * r < r * c := by
  have hcol : j * r + r ≤ r * c := by
    have hmul := Nat.mul_le_mul_right r hj
    rw [Nat.succ_mul] at hmul
    rwa [Nat.mul_comm r c]
  have hin : i + j * r < j * r + r := by
    rw [Nat.add_comm i (j * r)]
    exact Nat.add_lt_add_left hi (j * r)
  exact Nat.lt_of_lt_of_le hin hcol

lemma render_steps_table_irrel (F : FmtSpec α) (p : Plotter α) (s : String) :
    render_steps F { p with _table := s } = render_steps F p := rfl

lemma get_table_def (F : FmtSpec α) (p : Plotter α) :
    get_table F p
      = { ret := p._table ++ (render_steps F p).fst ++ "\n"
          cerr := getTableCerrMsg p.name (render_steps F p).snd
          self := { p with _table := p._table ++ (render_steps F p).fst ++ "\n" } } := rfl

lemma str_empty_append (s : String) : "" ++ s = s := rfl

lemma calculate_rows_def (a b : Int) : calculate_rows a b = Int.tdiv a b := rfl

lemma calculate_column_width_def (a b : Int) :
    calculate_column_width a b = Int.tdiv (a - (b + 1)) b := rfl

lemma int_tdiv_natCast (m n : Nat) :
    Int.tdiv (m : Int) (n : Int) = ((m / n : Nat) : Int) := rfl

/-- The code's content-cell read index is the spec's index formula reduced
modulo `2^32` (32-bit unsigned index arithmetic). -/
lemma contentReadIndex_eq_spec_mod (p : Plotter α) (i j : Nat) :
    contentReadIndex p i j
      = specCellIndex p.data_arrangement p.cols p.rows i j % 4294967296 := by
  cases ha : p.data_arrangement
  · simp only [contentReadIndex, specCellIndex, ha]
  · simp only [contentReadIndex, specCellIndex, ha]
    rw [Nat.mul_one]
    exact Nat.mod_add_mod _ _ _

/-- For `size` and label count in the `int`-representable range the
constructor's conversions are the identity: the stored `_cols` is the label
count and `_rows` is the truncating quotient `size / cols`. -/
lemma mk_rows_cols_in_int_range {data : Option (List α)} {nm : String}
    {ns : List String} {tw sz : Nat} {arr : DataArrangement} {p : Plotter α}
    (h : Plotter.mk? data nm ns tw sz arr = .ok p)
    (hsz : sz < 2147483648) (hcols : ns.length < 2147483648) :
    p.cols = ns.length ∧ p.rows = sz / ns.length := by
  obtain ⟨-, -, -, -, -, -, -, -, -, -, hcolsF, hrowsF, -, -, -⟩ := mk_ok_fields h
  have hmod : ns.length % 4294967296 = ns.length := Nat.mod_eq_of_lt (by omega)
  refine ⟨by rw [hcolsF, hmod], ?_⟩
  rw [hrowsF, hmod, toInt32_natCast _ (by omega), toInt32_natCast _ (by omega),
    calculate_rows_def, int_tdiv_natCast,
    u32_natCast _ (by have := Nat.div_le_self sz ns.length; omega)]

/-- C1 counterexample: at `size = 2147483650` (`2^31 + 2`) with 2 columns
the stored row count is 3221225473, and for row `i = 1073741823`, cell
`j = 1` (both in range) the 32-bit index arithmetic wraps: the code reads
buffer index 0 — not `i + j*rows = 4294967296` — and fetches the buffer's
element 0. -/
theorem c1_counterexample :
    Plotter.mk? (some [5, 6]) "W" ["a", "b"] 13 2147483650
        DataArrangement.ColumnMajor = .ok pW ∧
    1073741823 < pW.rows ∧ 1 < pW.cols ∧
    1073741823 + 1 * pW.rows = 4294967296 ∧
    contentReadIndex pW 1073741823 1 = 0 ∧
    contentReadIndex pW 1073741823 1 ≠ 1073741823 + 1 * pW.rows ∧
    contentCellValue FmtNat pW 1073741823 1 = 5 :=
  ⟨pW_ok, by decide, by decide, by decide, by decide, by decide, by decide⟩

/-- C1 as amended: the value rendered in cell `j` of content row `i` is read
from buffer index `(i*cols + j) mod 2^32` (RowMajor) resp.
`(i + j*rows) mod 2^32` (ColumnMajor) — the 32-bit unsigned index
arithmetic wraps — and whenever the spec's index is below `2^32` (in
particular whenever `size < 2^31`, where `rows*cols ≤ size`) it is exactly
`i*cols + j` resp. `i + j*rows`. -/
theorem c1_cell_read_index_wrapped (F : FmtSpec α)
    {data : Option (List α)} {nm : String} {ns : List String} {tw sz : Nat}
    {arr : DataArrangement} {p : Plotter α}
    (h : Plotter.mk? data nm ns tw sz arr = .ok p)
    (i j : Nat) (hi : i < p.rows) (hj : j < p.cols) :
    contentCellValue F p i j
      = p.data.getD (specCellIndex p.data_arrangement p.cols p.rows i j % 4294967296)
          F.defaultVal
    ∧ (specCellIndex p.data_arrangement p.cols p.rows i j < 4294967296 →
       contentCellValue F p i j
         = p.data.getD (specCellIndex p.data_arrangement p.cols p.rows i j) F.defaultVal) := by
  have hcv : contentCellValue F p i j
      = p.data.getD (contentReadIndex p i j) F.defaultVal := by
    cases ha : p.data_arrangement <;>
      simp [contentCellValue, rowCellValue, contentReadIndex, ha]
  refine ⟨?_, fun hlt => ?_⟩
  · rw [hcv, contentReadIndex_eq_spec_mod]
  · rw [hcv, contentReadIndex_eq_spec_mod, Nat.mod_eq_of_lt hlt]

/-- Witness for C1 as amended at the spec's own example: buffer
`[1,2,3,4,5,6]`, 2 columns, ColumnMajor, cell 1 of row 0 reads index
`0 + 1*3 = 3` (below `2^32`, so unwrapped), value 4. -/
theorem c1_witness :
    specCellIndex pA.data_arrangement pA.cols pA.rows 0 1 < 4294967296 ∧
    contentCellValue FmtNat pA 0 1
        = pA.data.getD (specCellIndex pA.data_arrangement pA.cols pA.rows 0 1) FmtNat.defaultVal ∧
    contentCellValue FmtNat pA 0 1 = 4 :=
  ⟨by decide,
   (c1_cell_read_index_wrapped FmtNat pA_ok 0 1 (by decide) (by decide)).2 (by decide),
   by decide⟩

/-- C2 counterexample: at `size = 2147483650` (`2^31 + 2`) with 2 columns
the program stores `_rows = u32((int)size / 2) = 3221225473`, not
`size / cols = 1073741825` — the claim's truncating-division formula fails
for a successfully constructed plotter. -/
theorem c2_counterexample :
    Plotter.mk? (some [5, 6]) "W" ["a", "b"] 13 2147483650
        DataArrangement.ColumnMajor = .ok pW ∧
    pW.rows = 3221225473 ∧ (2147483650 : Nat) / 2 = 1073741825 ∧
    pW.rows ≠ 2147483650 / 2 :=
  ⟨pW_ok, by decide, by decide, by decide⟩

/-- C2 as amended: when `size` and the label count are `int`-representable
(below `2^31` — otherwise the unsigned→int conversions inside the
constructor wrap and the stored `_rows = u32((int)size / (int)cols)`
differs), the row count is `size / cols` under truncating division, exactly
`rows` content rows are rendered, and every content-cell read index is below
`rows * cols = size - size mod cols`, so the trailing buffer elements are
never rendered. -/
theorem c2_rows_truncating_in_int_range (F : FmtSpec α)
    {data : Option (List α)} {nm : String} {ns : List String} {tw sz : Nat}
    {arr : DataArrangement} {p : Plotter α}
    (h : Plotter.mk? data nm ns tw sz arr = .ok p)
    (hsz : sz < 2147483648) (hcols : ns.length < 2147483648) :
    p.rows = sz / ns.length ∧
    p.rows * p.cols + sz % p.cols = sz ∧
    print_content F p = String.join (contentRows F p) ++ print_endline p ∧
    (contentRows F p).length = p.rows ∧
    (∀ i j, i < p.rows → j < p.cols → contentReadIndex p i j < p.rows * p.cols) := by
  obtain ⟨hc2, hr2⟩ := mk_rows_cols_in_int_range h hsz hcols
  refine ⟨hr2, ?_, print_content_eq_contentRows F p, by simp [contentRows], ?_⟩
  · rw [hr2, hc2, Nat.mul_comm]
    exact Nat.div_add_mod sz ns.length
  · intro i j hi hj
    have hle : p.rows * p.cols ≤ sz := by
      rw [hr2, hc2]
      exact Nat.div_mul_le_self sz ns.length
    have hidx : specCellIndex p.data_arrangement p.cols p.rows i j < p.rows * p.cols := by
      cases ha : p.data_arrangement <;> simp only [specCellIndex, ha]
      · exact idx_lt_mul_col hi hj
      · exact idx_lt_mul_row hi hj
    rw [contentReadIndex_eq_spec_mod, Nat.mod_eq_of_lt (by omega)]
    exact hidx

/-- Witness for C2 as amended: buffer `[1,2,3,4]`, 2 columns gives 2
rendered rows and in-range read indices. -/
theorem c2_witness :
    pB.rows = 2 ∧ (contentRows FmtNat pB).length = pB.rows ∧
    contentReadIndex pB 1 1 < pB.rows * pB.cols := by
  have h := c2_rows_truncating_in_int_range FmtNat pB_ok (by decide) (by decide)
  exact ⟨h.1, h.2.2.2.1, h.2.2.2.2 1 1 (by decide) (by decide)⟩

/-- C3 counterexample: at `table_width = 4000000000` with 2 columns the
constructor first wraps `table_width` to the `int` value `-294967296`, so it
stores column width `u32((-294967296 - 3) / 2) = 4147483647`, while the
claim's formula `(table_width - (cols+1)) / cols` gives `1999999998`. -/
theorem c3_counterexample :
    Plotter.mk? (some [1, 2]) "V" ["a", "b"] 4000000000 2
        DataArrangement.RowMajor = .ok pV ∧
    pV.column_width = 4147483647 ∧
    u32 (Int.tdiv ((4000000000 : Int) - (2 + 1)) 2) = 1999999998 ∧
    pV.column_width ≠ u32 (Int.tdiv ((4000000000 : Int) - (2 + 1)) 2) :=
  ⟨pV_ok, by decide, by decide, by decide⟩

/-- C3 as amended: the stored column width is
`u32(calculate_column_width((int)table_width, (int)cols))` — the unsigned
arguments pass through wrapping unsigned→int conversions — and when
`table_width` and the label count are below `2^31` this is the claim's
`(table_width - (cols+1)) / cols` under truncating signed division, stored
modulo `2^32` into the unsigned field (zero or negative values are stored
wrapped, not rejected). -/
theorem c3_column_width_wrapped
    {data : Option (List α)} {nm : String} {ns : List String} {tw sz : Nat}
    {arr : DataArrangement} {p : Plotter α}
    (h : Plotter.mk? data nm ns tw sz arr = .ok p) :
    p.column_width = u32 (calculate_column_width (toInt32 tw)
      (toInt32 ((ns.length % 4294967296 : Nat) : Int))) ∧
    (tw < 2147483648 → ns.length < 2147483648 →
      p.column_width
        = u32 (Int.tdiv ((tw : Int) - ((ns.length : Int) + 1)) (ns.length : Int))) := by
  obtain ⟨-, -, -, -, -, -, -, -, -, -, -, -, hcw, -, -⟩ := mk_ok_fields h
  refine ⟨hcw, fun htw hns => ?_⟩
  rw [hcw, Nat.mod_eq_of_lt (show ns.length < 4294967296 by omega),
    toInt32_natCast _ (by omega), toInt32_natCast _ (by omega),
    calculate_column_width_def]

/-- Witness for C3 as amended at a degenerate width: `table_width = 1`, 2
columns gives `(1 - 3) / 2 = -1`, stored as `4294967295`; construction
still succeeds. -/
theorem c3_witness :
    pC.column_width = 4294967295 ∧ pC.table_width = 1 ∧ pC.cols = 2 :=
  ⟨((c3_column_width_wrapped pC_ok).2 (by decide) (by decide)).trans (by decide),
   by decide, by decide⟩

/-- C6: construction fails with an invalid-argument error exactly when the
data pointer is null, the column-name list is empty, the table width is zero
or the size is zero — each with its own distinguishable message — and
succeeds whenever all four preconditions hold. -/
theorem c6_construction_validation (α : Type) (data : Option (List α))
    (nm : String) (ns : List String) (tw sz : Nat) (arr : DataArrangement) :
    ((∃ p, Plotter.mk? data nm ns tw sz arr = Except.ok p) ↔
      (data ≠ none ∧ ns ≠ [] ∧ tw ≠ 0 ∧ sz ≠ 0)) ∧
    ((∃ e, Plotter.mk? data nm ns tw sz arr = Except.error e) ↔
      (data = none ∨ ns = [] ∨ tw = 0 ∨ sz = 0)) ∧
    (data = none →
      Plotter.mk? data nm ns tw sz arr = Except.error "Plotter: data pointer cannot be null.") ∧
    (data ≠ none → ns = [] →
      Plotter.mk? data nm ns tw sz arr = Except.error "Plotter: column names vector cannot be empty.") ∧
    (data ≠ none → ns ≠ [] → tw = 0 →
      Plotter.mk? data nm ns tw sz arr = Except.error "Plotter: table width cannot be zero.") ∧
    (data ≠ none → ns ≠ [] → tw ≠ 0 → sz = 0 →
      Plotter.mk? data nm ns tw sz arr = Except.error "Plotter: size cannot be zero.") := by
  rcases data with _ | buf <;> rcases ns with _ | ⟨n0, ns1⟩ <;>
    rcases tw with _ | tw1 <;> rcases sz with _ | sz1 <;>
    simp [Plotter.mk?, validate_inputs_throw_exception]

/-- Witness for C6: a fully valid input constructs, a null data pointer is
rejected with the invalid-argument message. -/
theorem c6_witness :
    (∃ p : Plotter Nat,
      Plotter.mk? (some [1]) "t" ["a"] 5 1 DataArrangement.RowMajor = Except.ok p) ∧
    Plotter.mk? (none : Option (List Nat)) "t" ["a"] 5 1 DataArrangement.RowMajor
      = Except.error "Plotter: data pointer cannot be null." := by
  refine ⟨(c6_construction_validation Nat (some [1]) "t" ["a"] 5 1
      DataArrangement.RowMajor).1.mpr (by simp), ?_⟩
  exact (c6_construction_validation Nat none "t" ["a"] 5 1
      DataArrangement.RowMajor).2.2.1 rfl

/-- C4: in `print_row`, every overflow annotation is placed after the last
inline cell (each inline cell ends with the closing border) and before the
row's trailing newline; a cell whose fixed-precision text is longer than the
column width is rendered inline as the padded default value with its true
value recorded in a `cell: <j> value: <v>` buffer entry, while a cell whose
text fits (length at most the column width) is rendered inline unchanged with
an empty buffer entry. -/
theorem c4_overflow_policy (F : FmtSpec α) (p : Plotter α)
    (start count stride j : Nat) (hj : j < count) :
    print_row F p start count stride
      = "|" ++ String.join ((List.range count).map
            (fun k => (rowCell F p.data p.precision p.column_width start stride k).fst))
          ++ String.join ((List.range count).map
            (fun k => (rowCell F p.data p.precision p.column_width start stride k).snd))
          ++ "\n" ∧
    ((F.fmtFixed p.precision (rowCellValue F p.data start stride j)).length > p.column_width →
      rowCell F p.data p.precision p.column_width start stride j
        = (setwPad p.column_width (F.fmtFixed p.precision F.defaultVal) ++ "|",
           "\n\n" ++ "cell: " ++ toString j ++ " value: "
             ++ F.fmtPlain (rowCellValue F p.data start stride j))) ∧
    ((F.fmtFixed p.precision (rowCellValue F p.data start stride j)).length ≤ p.column_width →
      rowCell F p.data p.precision p.column_width start stride j
        = (setwPad p.column_width (F.fmtFixed p.precision (rowCellValue F p.data start stride j))
            ++ "|", "")) := by
  refine ⟨rfl, ?_, ?_⟩
  · intro hgt
    have hn : ¬ ((F.fmtFixed p.precision (rowCellValue F p.data start stride j)).length
        ≤ p.column_width) := Nat.not_le.mpr hgt
    simp [rowCell, col_width_is_sufficient, hn]
  · intro hle
    simp [rowCell, col_width_is_sufficient, hle]

/-- Witness for C4: with column width 5, the value 123456 (6 characters)
overflows and is replaced inline by the padded default 0 with an annotation,
while 42 fits and is rendered unchanged with no annotation. -/
theorem c4_witness :
    (0 : Nat) < 2 ∧
    rowCell FmtNat pE.data pE.precision pE.column_width 0 1 0
      = ("    0|", "\n\ncell: 0 value: 123456") ∧
    rowCell FmtNat pE.data pE.precision pE.column_width 0 1 1 = ("   42|", "") := by
  have h0 := c4_overflow_policy FmtNat pE 0 2 1 0 (by decide)
  have h1 := c4_overflow_policy FmtNat pE 0 2 1 1 (by decide)
  exact ⟨by decide, (h0.2.1 (by decide)).trans (by decide),
    (h1.2.2 (by decide)).trans (by decide)⟩

/-- C5 counterexample: on the plotter with column width 5 and first value
`12345.678`, the row's overflow annotation does NOT contain the claimed
fixed-precision text `cell: 0 value: 12345.67800000` — the annotation is
written without fixed formatting. -/
theorem c5_counterexample :
    Plotter.mk? (some [{ m := 12345678, e := 3 }, { m := 0, e := 0 }]) "demo" ["A", "B"] 13 2
        DataArrangement.RowMajor = .ok p5 ∧
    p5.column_width = 5 ∧
    strContainsSub (print_row FmtDec p5 0 2 1) "cell: 0 value: 12345.67800000" = false :=
  ⟨p5_ok, by decide, by decide⟩

/-- C5 as amended: with column width 5 the fixed-precision text of
`12345.678` has length 14 > 5, the cell is rendered as the default value 0
(in fixed notation `0.00000000`), and the row's trailing annotation carries
the default-formatted text `cell: 0 value: 12345.7` (6 significant digits),
not the fixed-precision text. -/
theorem c5_amended :
    Plotter.mk? (some [{ m := 12345678, e := 3 }, { m := 0, e := 0 }]) "demo" ["A", "B"] 13 2
        DataArrangement.RowMajor = Except.ok p5 ∧
    p5.column_width = 5 ∧
    (FmtDec.fmtFixed p5.precision { m := 12345678, e := 3 }).length = 14 ∧
    rowCell FmtDec p5.data p5.precision p5.column_width 0 1 0
      = ("0.00000000|", "\n\ncell: 0 value: 12345.7") ∧
    strContainsSub (print_row FmtDec p5 0 2 1) "cell: 0 value: 12345.7" = true :=
  ⟨p5_ok, by decide, by decide, by decide, by decide⟩

/-- C7: `get_table` and `print_table` are total — any pipeline failure is
caught and reported only as a diagnostic (stderr text for `get_table`, a
stdout prefix for `print_table`) while the call still returns/prints the
partially built output followed by the trailing newline appended after the
catch. -/
theorem c7_render_never_propagates (F : FmtSpec α) (p : Plotter α) :
    (get_table F p).ret = p._table ++ (render_steps F p).fst ++ "\n" ∧
    (get_table F p).self._table = (get_table F p).ret ∧
    (get_table F p).cerr = getTableCerrMsg p.name (render_steps F p).snd ∧
    (print_table F p).cout = printTableErrMsg (render_steps F p).snd
        ++ (p._table ++ (render_steps F p).fst ++ "\n") :=
  ⟨by dsimp only [get_table], by dsimp only [get_table],
   by dsimp only [get_table], by dsimp only [print_table]⟩

/-- Witness for C7 at a failing render: the name `"LONGNAME"` does not fit
table width 5, the header padding throws, yet `get_table` still returns the
partial output plus a newline and reports the exception on stderr. -/
theorem c7_witness :
    (get_table FmtNat pD).ret = "\n+---+\n|\n" ∧
    (get_table FmtNat pD).cerr
      = "Error printing table: LONGNAME\nbasic_string::_M_create\n" ∧
    Plotter.mk? (some [1]) "LONGNAME" ["a"] 5 1 DataArrangement.RowMajor = .ok pD := by
  refine ⟨((c7_render_never_propagates FmtNat pD).1).trans (by decide), ?_, pD_ok⟩
  exact ((c7_render_never_propagates FmtNat pD).2.2.1).trans (by decide)

/-- C8 counterexample: for name `"X"` and table width 11 the code produces
left padding 4 and right padding 4 — the banner line is `|    X    |`
(11 characters), and the line `|    X     |` claimed by the spec (right
padding 5, 12 characters) does not occur in the banner. -/
theorem c8_counterexample :
    Plotter.mk? (some [7]) "X" ["C"] 11 1 DataArrangement.RowMajor = .ok p8 ∧
    strContainsSub (print_table_header p8).fst "|    X     |" = false ∧
    print_table_header p8 = ("\n+---------+\n|    X    |\n+---------+\n", none) :=
  ⟨p8_ok, by decide, by decide⟩

/-- C8 as amended: whenever the name fits (`name.length + 2 ≤ table_width`,
with `table_width` in the unsigned-int range), the banner centers the name
with left padding `(table_width - name.length - 2) / 2` and right padding
the remainder of that same difference, so odd leftover space goes to the
right; for name `"X"` and table width 11 both paddings are 4 and the line is
`|    X    |`. -/
theorem c8_amended (p : Plotter α) (hfit : p.name.length + 2 ≤ p.table_width)
    (htw : p.table_width < 2 ^ 32) :
    print_table_header p
      = ("\n" ++ "+" ++ String.mk (List.replicate (p.table_width - 2) '-') ++ "+" ++ "\n"
          ++ "|" ++ String.mk (List.replicate ((p.table_width - p.name.length - 2) / 2) ' ')
          ++ p.name
          ++ String.mk (List.replicate ((p.table_width - p.name.length - 2)
              - (p.table_width - p.name.length - 2) / 2) ' ')
          ++ "|" ++ "\n" ++ "+" ++ String.mk (List.replicate (p.table_width - 2) '-') ++ "+" ++ "\n",
        none) := by
  have ha : (p.table_width : Int) - p.name.length - 2
      = ((p.table_width - p.name.length - 2 : Nat) : Int) := by omega
  have hlp : header_left_padding p.name p.table_width
      = (((p.table_width - p.name.length - 2) / 2 : Nat) : Int) := by
    rw [header_left_padding_def, ha, szt_natCast _ (by omega), toInt32_natCast _ (by omega)]
  have hrp : header_right_padding p.name p.table_width
      = (((p.table_width - p.name.length - 2)
          - (p.table_width - p.name.length - 2) / 2 : Nat) : Int) := by
    rw [header_right_padding_def, hlp, ha]
    have hb : ((p.table_width - p.name.length - 2 : Nat) : Int)
        - (((p.table_width - p.name.length - 2) / 2 : Nat) : Int)
        = (((p.table_width - p.name.length - 2)
            - (p.table_width - p.name.length - 2) / 2 : Nat) : Int) := by omega
    rw [hb, toInt32_natCast _ (by omega)]
  have h0 : ¬ (header_left_padding p.name p.table_width < 0) := by rw [hlp]; omega
  have h1 : ¬ (header_right_padding p.name p.table_width < 0) := by rw [hrp]; omega
  have hbd : borderDashes p.table_width
      = String.mk (List.replicate (p.table_width - 2) '-') := by
    have hc : (p.table_width : Int) - 2 = ((p.table_width - 2 : Nat) : Int) := by omega
    rw [borderDashes_def, hc, u32_natCast _ (by omega)]
  rw [print_table_header_eq_core, print_table_header_core_def, if_neg h0, if_neg h1,
    hlp, hrp, hbd, int_toNat_cast, int_toNat_cast]

/-- Witness for C8 as amended, at the spec's example input. -/
theorem c8_witness :
    print_table_header p8 = ("\n+---------+\n|    X    |\n+---------+\n", none) :=
  (c8_amended p8 (by decide) (by decide)).trans (by decide)

/-- C9: `get_table` does not reset the accumulation buffer — on a freshly
constructed plotter a second call returns the first call's string followed
by one more full copy of it. -/
theorem c9_get_table_appends (F : FmtSpec α)
    {data : Option (List α)} {nm : String} {ns : List String} {tw sz : Nat}
    {arr : DataArrangement} {p : Plotter α}
    (h : Plotter.mk? data nm ns tw sz arr = .ok p) :
    (get_table F ((get_table F p).self)).ret
      = (get_table F p).ret ++ (get_table F p).ret := by
  obtain ⟨-, -, -, -, htab, -, -, -, -, -, -, -, -, -, -⟩ := mk_ok_fields h
  rw [get_table_def, get_table_def]
  dsimp only
  rw [htab, str_empty_append]
  rw [render_steps_table_irrel F p ((render_steps F p).fst ++ "\n")]
  exact String.append_assoc _ _ _

/-- Witness for C9: two renders of the `[1,2,3,4]` plotter. -/
theorem c9_witness :
    (get_table FmtNat ((get_table FmtNat pB).self)).ret
      = (get_table FmtNat pB).ret ++ (get_table FmtNat pB).ret :=
  c9_get_table_appends FmtNat pB_ok

/-- C10 counterexample: with `size = 2147483650` (`2^31 + 2`), 2 columns,
and a buffer that really holds `size` elements, the wrapped row count
3221225473 drives reads past the end: row 1, cell 1 reads index
3221225474 ≥ size — an out-of-bounds read in C++. -/
theorem c10_counterexample :
    Plotter.mk? (some (List.replicate 2147483650 0)) "W" ["a", "b"] 13 2147483650
        DataArrangement.ColumnMajor = .ok pW8 ∧
    pW8.size ≤ pW8.data.length ∧
    1 < pW8.rows ∧ 1 < pW8.cols ∧
    contentReadIndex pW8 1 1 = 3221225474 ∧
    ¬ (contentReadIndex pW8 1 1 < pW8.size) := by
  refine ⟨pW8_ok, ?_, by decide, by decide, by decide, by decide⟩
  show pW8.size ≤ pW8.data.length
  rw [show pW8.data = List.replicate 2147483650 0 from rfl, List.length_replicate]
  exact Nat.le_refl _

/-- C10 as amended: when `size` and the label count are `int`-representable
(below `2^31`), every content-cell read index is below `size` and hence
within a buffer holding at least `size` elements; outside that range the
wrapped row count makes rendering read past `size` (see the
counterexample). -/
theorem c10_reads_in_bounds_in_int_range
    {data : Option (List α)} {nm : String} {ns : List String} {tw sz : Nat}
    {arr : DataArrangement} {p : Plotter α}
    (h : Plotter.mk? data nm ns tw sz arr = .ok p)
    (hbuf : p.size ≤ p.data.length)
    (hsz : sz < 2147483648) (hcols : ns.length < 2147483648)
    (i j : Nat) (hi : i < p.rows) (hj : j < p.cols) :
    contentReadIndex p i j < p.size ∧ contentReadIndex p i j < p.data.length := by
  obtain ⟨hc2, hr2⟩ := mk_rows_cols_in_int_range h hsz hcols
  obtain ⟨-, -, -, -, -, -, -, -, -, hsize, -, -, -, -, -⟩ := mk_ok_fields h
  have hle : p.rows * p.cols ≤ sz := by
    rw [hr2, hc2]
    exact Nat.div_mul_le_self sz ns.length
  have hidx : specCellIndex p.data_arrangement p.cols p.rows i j < p.rows * p.cols := by
    cases ha : p.data_arrangement <;> simp only [specCellIndex, ha]
    · exact idx_lt_mul_col hi hj
    · exact idx_lt_mul_row hi hj
  have h1 : contentReadIndex p i j < p.size := by
    rw [hsize, contentReadIndex_eq_spec_mod, Nat.mod_eq_of_lt (by omega)]
    omega
  exact ⟨h1, Nat.lt_of_lt_of_le h1 hbuf⟩

/-- Witness for C10 as amended at the last cell of the ColumnMajor example:
row 2, cell 1 reads index `2 + 1*3 = 5 < 6`. -/
theorem c10_witness :
    contentReadIndex pA 2 1 < pA.size ∧ contentReadIndex pA 2 1 < pA.data.length :=
  c10_reads_in_bounds_in_int_range pA_ok (by decide) (by decide) (by decide) 2 1
    (by decide) (by decide)
